import Mathlib

/-
Verification of the core pipeline of the Palisades fire dashboard
(src/dashboards/streamlit/palisades_fire_app.py).

The pipeline builds lazy Earth Engine computation graphs.  We embed the
per-pixel semantics of those graphs shallowly:

* a single-band raster over an abstract pixel type `P` is a function `P → ℚ`
  (a masked raster is `P → Option ℚ`, `none` meaning "masked out");
* a multi-band image is a band-name list together with a band-valuation
  function (`EEImage`);
* an image collection is a list of items carrying a timestamp, cloud-cover
  metadata, a footprint rectangle, and per-band pixel data (`S2Item`);
* the remote band-name query of `calculate_fire_indices` and the remote
  evaluation inside `calculate_fire_statistics` can raise; each is modelled
  by an explicit boolean "this call raised" parameter, and the enclosing
  Python try/except is translated as a branch on it;
* `reduceRegion(sum, geometry, scale, maxPixels)` is modelled as the sum of
  the raster over a concrete pixel list for the geometry, recording the
  requested scale and maxPixels arguments verbatim.
-/

namespace PalisadesFire

variable {P : Type}

/-! ### Band algebra: calculate_fire_indices (palisades_fire_app.py lines 107-167) -/

/-- Sentinel-2 band names, as in the source (lines 111-114). -/
def nir_band : String := "B8"

def red_band : String := "B4"

def swir_band : String := "B12"

def green_band : String := "B3"

/-- Per-pixel normalized difference of two band values, the semantics of
Earth Engine `img.normalizedDifference([a, b])`: (a - b) / (a + b). -/
def normalizedDifference (a b : ℚ) : ℚ := (a - b) / (a + b)

/-- A multi-band image: its band-name list and the per-band pixel values. -/
structure EEImage (P : Type) where
  bandNames : List String
  band : String → P → ℚ

/-- `img.normalizedDifference([b1, b2])` as a single-band raster. -/
def EEImage.normDiff (img : EEImage P) (b1 b2 : String) : P → ℚ :=
  fun p => normalizedDifference (img.band b1 p) (img.band b2 p)

/-- The seven output rasters of calculate_fire_indices (its returned dict). -/
structure FireIndices (P : Type) where
  nbr_before : P → ℚ
  nbr_after : P → ℚ
  dnbr : P → ℚ
  ndvi_before : P → ℚ
  ndvi_after : P → ℚ
  ndwi_before : P → ℚ
  ndwi_after : P → ℚ

/-- required_bands = [nir_band, red_band, swir_band, green_band] (line 119). -/
def required_bands : List String := [nir_band, red_band, swir_band, green_band]

/-- The all-zero sentinel output (`ee.Image(0)` under each of the seven keys,
lines 123-131 and 134-142). -/
def zeroIndices (P : Type) : FireIndices P :=
  ⟨fun _ => 0, fun _ => 0, fun _ => 0, fun _ => 0, fun _ => 0, fun _ => 0, fun _ => 0⟩

/-- calculate_fire_indices (lines 107-167).  `getInfoFails` models the
`before_img.bandNames().getInfo()` round trip raising an exception, which the
source catches (lines 132-142) by returning the zero sentinel; when the query
succeeds it returns `before_img`'s band-name list. -/
def calculate_fire_indices (before_img after_img : EEImage P) (getInfoFails : Bool) :
    FireIndices P :=
  if getInfoFails then zeroIndices P
  else
    let band_names := before_img.bandNames
    if ! (required_bands.all fun band => band_names.contains band) then zeroIndices P
    else
      let nbr_before := before_img.normDiff nir_band swir_band
      let nbr_after := after_img.normDiff nir_band swir_band
      let dnbr := fun p => nbr_before p - nbr_after p
      let ndvi_before := before_img.normDiff nir_band red_band
      let ndvi_after := after_img.normDiff nir_band red_band
      let ndwi_before := before_img.normDiff green_band nir_band
      let ndwi_after := after_img.normDiff green_band nir_band
      ⟨nbr_before, nbr_after, dnbr, ndvi_before, ndvi_after, ndwi_before, ndwi_after⟩

/-! ### Severity classifier: classify_burn_severity (lines 169-180)

`raster.where(test, value)` replaces the current value by `value` at every
pixel where `test` holds; the tests of the chain are all evaluated on the
original `dnbr` raster, and a later `where` overwrites an earlier one.  The
let-chain below reproduces the source's chain in order, per pixel. -/

/-- classify_burn_severity, per pixel (lines 173-178). -/
def classify_burn_severity (d : ℚ) : ℚ :=
  let s1 := d
  let s2 := if d < -0.1 then 0 else s1
  let s3 := if -0.1 ≤ d ∧ d < 0.1 then 1 else s2
  let s4 := if 0.1 ≤ d ∧ d < 0.27 then 2 else s3
  let s5 := if 0.27 ≤ d ∧ d < 0.44 then 3 else s4
  let s6 := if 0.44 ≤ d ∧ d < 0.66 then 4 else s5
  if 0.66 ≤ d then 5 else s6

/-! ### Area aggregator: calculate_fire_statistics (lines 270-318) -/

/-- The value returned by one `reduceRegion(sum, aoi, scale, maxPixels)`
request: the computed sum together with the scale and maxPixels arguments
that were passed to the service. -/
structure ReduceRegionResult where
  sum : ℚ
  scale : ℚ
  maxPixels : ℚ

/-- `raster.updateMask(mask)`: pixels where the mask is false become masked. -/
def updateMask (v : P → ℚ) (mask : P → Bool) : P → Option ℚ :=
  fun p => if mask p then some (v p) else none

/-- `raster.reduceRegion(ee.Reducer.sum(), geometry, scale, maxPixels)`:
sums the unmasked pixel values over the geometry's sample pixels (a masked
pixel contributes nothing to the sum). -/
def reduceRegion_sum (img : P → Option ℚ) (geometry : List P) (scale maxPixels : ℚ) :
    ReduceRegionResult :=
  ⟨(geometry.map fun p => (img p).getD 0).sum, scale, maxPixels⟩

/-- The `indices` dict as consumed by calculate_fire_statistics: it looks up
only the keys 'dnbr' and 'burn_severity', each of which may be absent. -/
structure FireIndicesMap (P : Type) where
  dnbr : Option (P → ℚ)
  burn_severity : Option (P → ℚ)

/-- The statistics dict built at lines 309-312: the total-burned-area sum and
one per-class area sum for each severity class 0..5. -/
structure FireStats where
  burned_area : ReduceRegionResult
  severity_stats : Fin 6 → ReduceRegionResult

/-- calculate_fire_statistics (lines 270-318).  `pixelArea` is the per-pixel
`ee.Image.pixelArea()` raster (square meters); `remoteFailure` models any
exception raised inside the try block, which the source catches (lines
316-318) by emitting an advisory warning and returning None.  The returned
Bool records whether that advisory warning was emitted. -/
def calculate_fire_statistics (indices : FireIndicesMap P) (aoi : List P)
    (pixelArea : P → ℚ) (remoteFailure : Bool) : Option FireStats × Bool :=
  if remoteFailure then (none, true)
  else
    match indices.dnbr with
    | none => (none, false)
    | some dnbr =>
      let area_image : P → ℚ := fun p => pixelArea p / 10000
      let burned_mask : P → Bool := fun p => decide ((0.1 : ℚ) ≤ dnbr p)
      let burned_area := updateMask area_image burned_mask
      let burned_stats := reduceRegion_sum burned_area aoi 30 1000000000
      match indices.burn_severity with
      | none => (none, false)
      | some severity =>
        (some ⟨burned_stats,
          fun i => reduceRegion_sum
            (updateMask area_image fun p => decide (severity p = (i.val : ℚ)))
            aoi 30 1000000000⟩, false)

/-! ### Composite selector: load_fire_datasets (lines 76-105)

The collection operations (`filterDate`, `filterBounds`, `filter(lt)`,
`median`, `clip`) are Earth Engine service operations, not code of this
repository; their semantics below is modelled from the spec. -/

/-- An axis-aligned geographic rectangle (west, south, east, north). -/
structure Rect where
  west : ℚ
  south : ℚ
  east : ℚ
  north : ℚ

/-- Whether two rectangles intersect. -/
def Rect.intersects (r s : Rect) : Bool :=
  decide (r.west ≤ s.east) && decide (s.west ≤ r.east) &&
    decide (r.south ≤ s.north) && decide (s.south ≤ r.north)

/-- Whether a rectangle contains a point. -/
def Rect.containsPt (r : Rect) (q : ℚ × ℚ) : Bool :=
  decide (r.west ≤ q.1) && decide (q.1 ≤ r.east) &&
    decide (r.south ≤ q.2) && decide (q.2 ≤ r.north)

/-- One item of the Sentinel-2 image collection: acquisition time (in days),
CLOUDY_PIXEL_PERCENTAGE metadata, footprint, and per-band pixel data
(`none` where the item has no data). -/
structure S2Item where
  time : ℤ
  cloudyPixelPercentage : ℚ
  footprint : Rect
  px : String → ℚ × ℚ → Option ℚ

/-- Modelled from the spec: `collection.filterDate(start, stop)` keeps the
items whose timestamp falls in the window from `start` to `stop` (section
4.1 describes the selector's window as the closed interval). -/
def filterDate (coll : List S2Item) (start stop : ℤ) : List S2Item :=
  coll.filter fun it => decide (start ≤ it.time) && decide (it.time ≤ stop)

/-- Modelled from the spec: `collection.filterBounds(roi)` keeps the items
whose footprint intersects the region of interest. -/
def filterBounds (coll : List S2Item) (roi : Rect) : List S2Item :=
  coll.filter fun it => it.footprint.intersects roi

/-- Modelled from the spec: `collection.filter(ee.Filter.lt(cloud, t))` keeps
the items whose cloud-cover metadata is strictly less than the threshold. -/
def filterCloudLt (coll : List S2Item) (threshold : ℚ) : List S2Item :=
  coll.filter fun it => decide (it.cloudyPixelPercentage < threshold)

/-- Insert into a sorted list of rationals. -/
def insertSorted (x : ℚ) : List ℚ → List ℚ
  | [] => [x]
  | y :: ys => if x ≤ y then x :: y :: ys else y :: insertSorted x ys

/-- Insertion sort for rationals. -/
def sortQ : List ℚ → List ℚ
  | [] => []
  | x :: xs => insertSorted x (sortQ xs)

/-- Median of a list of rationals (`none` on the empty list; for an even
number of values, the mean of the two middle values). -/
def medianQ (l : List ℚ) : Option ℚ :=
  let s := sortQ l
  match s.length with
  | 0 => none
  | n + 1 =>
    if n % 2 = 0 then s[n / 2]?
    else some (((s[(n - 1) / 2]?).getD 0 + (s[(n + 1) / 2]?).getD 0) / 2)

/-- Modelled from the spec: `collection.median()` reduces the items to one
image by per-pixel, per-band median across all items with data there. -/
def collectionMedian (coll : List S2Item) : String → ℚ × ℚ → Option ℚ :=
  fun band q => medianQ (coll.filterMap fun it => it.px band q)

/-- Modelled from the spec: `image.clip(roi)` masks the image outside roi. -/
def clipImage (img : String → ℚ × ℚ → Option ℚ) (roi : Rect) :
    String → ℚ × ℚ → Option ℚ :=
  fun band q => if roi.containsPt q then img band q else none

/-- load_fire_datasets (lines 76-105): the before composite over the 180-day
lookback window with cloud threshold 20, and the after composite over the
30-day lookahead window with cloud threshold 30, both median-reduced and
clipped to the area of interest.  Dates are in days. -/
def load_fire_datasets (sentinel2 : List S2Item) (before_date after_date : ℤ)
    (aoi : Rect) : (String → ℚ × ℚ → Option ℚ) × (String → ℚ × ℚ → Option ℚ) :=
  let before_start := before_date - 180
  let sentinel_before :=
    clipImage (collectionMedian
      (filterCloudLt (filterBounds (filterDate sentinel2 before_start before_date) aoi) 20)) aoi
  let after_end := after_date + 30
  let sentinel_after :=
    clipImage (collectionMedian
      (filterCloudLt (filterBounds (filterDate sentinel2 after_date after_end) aoi) 30)) aoi
  (sentinel_before, sentinel_after)

/-! ### Concrete inputs used to exercise the theorems -/

/-- A concrete before image carrying all four required bands. -/
def wBefore : EEImage Unit :=
  ⟨["B8", "B4", "B12", "B3"],
   fun b _ => if b = "B8" then 5 else if b = "B4" then 1 else
     if b = "B12" then 3 else if b = "B3" then 2 else 0⟩

/-- A concrete after image carrying all four required bands. -/
def wAfter : EEImage Unit :=
  ⟨["B8", "B4", "B12", "B3"],
   fun b _ => if b = "B8" then 2 else if b = "B4" then 1 else
     if b = "B12" then 4 else if b = "B3" then 1 else 0⟩

/-- A concrete image missing the required bands "B12" and "B3". -/
def wMissing : EEImage Unit := ⟨["B8", "B4"], fun _ _ => 7⟩

/-! ### Classifier lemmas -/

/-- On d < -0.1 the classifier chain yields class 0. -/
theorem classify_in_zero (d : ℚ) (h : d < -0.1) : classify_burn_severity d = 0 := by
  have n66 : ¬ (0.66 : ℚ) ≤ d := by linarith
  have n45 : ¬ ((0.44 : ℚ) ≤ d ∧ d < 0.66) := by rintro ⟨hA, hB⟩; linarith
  have n34 : ¬ ((0.27 : ℚ) ≤ d ∧ d < 0.44) := by rintro ⟨hA, hB⟩; linarith
  have n23 : ¬ ((0.1 : ℚ) ≤ d ∧ d < 0.27) := by rintro ⟨hA, hB⟩; linarith
  have n12 : ¬ ((-0.1 : ℚ) ≤ d ∧ d < 0.1) := by rintro ⟨hA, hB⟩; linarith
  simp only [classify_burn_severity]
  rw [if_neg n66, if_neg n45, if_neg n34, if_neg n23, if_neg n12, if_pos h]

/-- On -0.1 ≤ d < 0.1 the classifier chain yields class 1. -/
theorem classify_in_one (d : ℚ) (h1 : -0.1 ≤ d) (h2 : d < 0.1) :
    classify_burn_severity d = 1 := by
  have n66 : ¬ (0.66 : ℚ) ≤ d := by linarith
  have n45 : ¬ ((0.44 : ℚ) ≤ d ∧ d < 0.66) := by rintro ⟨hA, hB⟩; linarith
  have n34 : ¬ ((0.27 : ℚ) ≤ d ∧ d < 0.44) := by rintro ⟨hA, hB⟩; linarith
  have n23 : ¬ ((0.1 : ℚ) ≤ d ∧ d < 0.27) := by rintro ⟨hA, hB⟩; linarith
  simp only [classify_burn_severity]
  rw [if_neg n66, if_neg n45, if_neg n34, if_neg n23, if_pos ⟨h1, h2⟩]

/-- On 0.1 ≤ d < 0.27 the classifier chain yields class 2. -/
theorem classify_in_two (d : ℚ) (h1 : 0.1 ≤ d) (h2 : d < 0.27) :
    classify_burn_severity d = 2 := by
  have n66 : ¬ (0.66 : ℚ) ≤ d := by linarith
  have n45 : ¬ ((0.44 : ℚ) ≤ d ∧ d < 0.66) := by rintro ⟨hA, hB⟩; linarith
  have n34 : ¬ ((0.27 : ℚ) ≤ d ∧ d < 0.44) := by rintro ⟨hA, hB⟩; linarith
  simp only [classify_burn_severity]
  rw [if_neg n66, if_neg n45, if_neg n34, if_pos ⟨h1, h2⟩]

/-- On 0.27 ≤ d < 0.44 the classifier chain yields class 3. -/
theorem classify_in_three (d : ℚ) (h1 : 0.27 ≤ d) (h2 : d < 0.44) :
    classify_burn_severity d = 3 := by
  have n66 : ¬ (0.66 : ℚ) ≤ d := by linarith
  have n45 : ¬ ((0.44 : ℚ) ≤ d ∧ d < 0.66) := by rintro ⟨hA, hB⟩; linarith
  simp only [classify_burn_severity]
  rw [if_neg n66, if_neg n45, if_pos ⟨h1, h2⟩]

/-- On 0.44 ≤ d < 0.66 the classifier chain yields class 4. -/
theorem classify_in_four (d : ℚ) (h1 : 0.44 ≤ d) (h2 : d < 0.66) :
    classify_burn_severity d = 4 := by
  have n66 : ¬ (0.66 : ℚ) ≤ d := by linarith
  simp only [classify_burn_severity]
  rw [if_neg n66, if_pos ⟨h1, h2⟩]

/-- On 0.66 ≤ d the classifier chain yields class 5 (the last where wins). -/
theorem classify_in_five (d : ℚ) (h : 0.66 ≤ d) : classify_burn_severity d = 5 := by
  simp only [classify_burn_severity]
  rw [if_pos h]

/-- The classifier chain equals the highest-satisfied-lower-bound table. -/
theorem classify_table (d : ℚ) :
    classify_burn_severity d =
      if d < -0.1 then 0 else if d < 0.1 then 1 else if d < 0.27 then 2
      else if d < 0.44 then 3 else if d < 0.66 then 4 else 5 := by
  rcases lt_or_le d (-0.1) with h0 | h0
  · rw [classify_in_zero d h0, if_pos h0]
  · rw [if_neg (not_lt.mpr h0)]
    rcases lt_or_le d 0.1 with h1 | h1
    · rw [classify_in_one d h0 h1, if_pos h1]
    · rw [if_neg (not_lt.mpr h1)]
      rcases lt_or_le d 0.27 with h2 | h2
      · rw [classify_in_two d h1 h2, if_pos h2]
      · rw [if_neg (not_lt.mpr h2)]
        rcases lt_or_le d 0.44 with h3 | h3
        · rw [classify_in_three d h2 h3, if_pos h3]
        · rw [if_neg (not_lt.mpr h3)]
          rcases lt_or_le d 0.66 with h4 | h4
          · rw [classify_in_four d h3 h4, if_pos h4]
          · rw [classify_in_five d h4, if_neg (not_lt.mpr h4)]

/-! ### Summation lemmas for the area aggregator -/

/-- A masked pixel read with default 0 is an if-then-else on the mask. -/
theorem updateMask_getD (v : P → ℚ) (mask : P → Bool) (p : P) :
    ((updateMask v mask) p).getD 0 = if mask p then v p else 0 := by
  cases hm : mask p <;> simp [updateMask, hm]

/-- Summing a masked raster over a pixel list equals summing the raw raster
over the mask-filtered list. -/
theorem sum_map_ite_filter (v : P → ℚ) (mask : P → Bool) (l : List P) :
    (l.map fun p => if mask p then v p else 0).sum = ((l.filter mask).map v).sum := by
  induction l with
  | nil => rfl
  | cons x t ih => cases hm : mask x <;> simp [List.filter_cons, hm, ih]

/-- Pointwise: the burned-mask indicator splits into the four indicators of
severity classes 2, 3, 4 and 5. -/
theorem ite_class_split (d x : ℚ) :
    (if decide ((0.1 : ℚ) ≤ d) then x else 0) =
      (if decide (classify_burn_severity d = 2) then x else 0) +
      (if decide (classify_burn_severity d = 3) then x else 0) +
      (if decide (classify_burn_severity d = 4) then x else 0) +
      (if decide (classify_burn_severity d = 5) then x else 0) := by
  simp only [decide_eq_true_eq]
  rcases lt_or_le d (-0.1) with h0 | h0
  · rw [classify_in_zero d h0, if_neg (show ¬ (0.1 : ℚ) ≤ d by linarith)]
    norm_num
  · rcases lt_or_le d 0.1 with h1 | h1
    · rw [classify_in_one d h0 h1, if_neg (not_le.mpr h1)]
      norm_num
    · rcases lt_or_le d 0.27 with h2 | h2
      · rw [classify_in_two d h1 h2, if_pos h1]
        norm_num
      · rcases lt_or_le d 0.44 with h3 | h3
        · rw [classify_in_three d h2 h3, if_pos (show (0.1 : ℚ) ≤ d by linarith)]
          norm_num
        · rcases lt_or_le d 0.66 with h4 | h4
          · rw [classify_in_four d h3 h4, if_pos (show (0.1 : ℚ) ≤ d by linarith)]
            norm_num
          · rw [classify_in_five d h4, if_pos (show (0.1 : ℚ) ≤ d by linarith)]
            norm_num

/-- Over any pixel list, the burned-mask sum splits into the four sums of
severity classes 2, 3, 4 and 5. -/
theorem sum_ite_split (f a : P → ℚ) (l : List P) :
    (l.map fun p => if decide ((0.1 : ℚ) ≤ f p) then a p else 0).sum =
      (l.map fun p => if decide (classify_burn_severity (f p) = 2) then a p else 0).sum +
      (l.map fun p => if decide (classify_burn_severity (f p) = 3) then a p else 0).sum +
      (l.map fun p => if decide (classify_burn_severity (f p) = 4) then a p else 0).sum +
      (l.map fun p => if decide (classify_burn_severity (f p) = 5) then a p else 0).sum := by
  induction l with
  | nil => simp
  | cons x t ih =>
    simp only [List.map_cons, List.sum_cons, ih, ite_class_split (f x) (a x)]
    ring

/-! ### Claim theorems -/

/-- C1: classify_burn_severity assigns exactly the class of the fixed
threshold table (class 0 for d < -0.1, 1 for -0.1 ≤ d < 0.1, 2 for
0.1 ≤ d < 0.27, 3 for 0.27 ≤ d < 0.44, 4 for 0.44 ≤ d < 0.66, 5 for
d ≥ 0.66), equivalently picking the highest class whose lower bound is
satisfied, with each boundary inclusive on the upper side: in particular
classify(-0.1) = 1, classify(0.1) = 2, classify(0.27) = 3,
classify(0.44) = 4 and classify(0.66) = 5. -/
theorem classifier_threshold_table :
    (∀ d : ℚ, classify_burn_severity d =
      if d < -0.1 then 0 else if d < 0.1 then 1 else if d < 0.27 then 2
      else if d < 0.44 then 3 else if d < 0.66 then 4 else 5) ∧
    classify_burn_severity (-0.1) = 1 ∧ classify_burn_severity 0.1 = 2 ∧
    classify_burn_severity 0.27 = 3 ∧ classify_burn_severity 0.44 = 4 ∧
    classify_burn_severity 0.66 = 5 :=
  ⟨classify_table,
   classify_in_one (-0.1) (by norm_num) (by norm_num),
   classify_in_two 0.1 (by norm_num) (by norm_num),
   classify_in_three 0.27 (by norm_num) (by norm_num),
   classify_in_four 0.44 (by norm_num) (by norm_num),
   classify_in_five 0.66 (by norm_num)⟩

/-- C6: classify_burn_severity only produces the integer values 0..5, and is
monotonically non-decreasing in the difference-index value. -/
theorem classify_range_monotone (d1 d2 : ℚ) (h : d1 ≤ d2) :
    classify_burn_severity d1 ∈ ([0, 1, 2, 3, 4, 5] : List ℚ) ∧
    classify_burn_severity d1 ≤ classify_burn_severity d2 := by
  constructor
  · rw [classify_table d1]
    split_ifs <;> simp
  · rw [classify_table d1, classify_table d2]
    split_ifs <;> linarith

/-- Witness for C6 at d1 = 0, d2 = 1. -/
theorem classify_range_monotone_witness :
    ((0 : ℚ) ≤ 1) ∧
    (classify_burn_severity 0 ∈ ([0, 1, 2, 3, 4, 5] : List ℚ) ∧
      classify_burn_severity 0 ≤ classify_burn_severity 1) :=
  ⟨by norm_num, classify_range_monotone 0 1 (by norm_num)⟩

/-- C7 counterexample: for band values of mixed sign the normalized
difference escapes [-1, 1]: at a = 3, b = -1 the sum is nonzero but
(a - b) / (a + b) = 2 > 1. -/
theorem normalized_difference_out_of_range :
    ((3 : ℚ) + (-1) ≠ 0) ∧ ¬ (normalizedDifference 3 (-1) ≤ 1) := by
  constructor
  · norm_num
  · norm_num [normalizedDifference]

/-- C7 (amended): for non-negative band values a, b with a + b ≠ 0, the
normalized difference (a - b) / (a + b) lies in [-1, 1], and it is
antisymmetric: normalizedDifference a b = -normalizedDifference b a. -/
theorem normalized_difference_bounds (a b : ℚ) (ha : 0 ≤ a) (hb : 0 ≤ b)
    (hab : a + b ≠ 0) :
    -1 ≤ normalizedDifference a b ∧ normalizedDifference a b ≤ 1 ∧
    normalizedDifference a b = - normalizedDifference b a := by
  have hpos : 0 < a + b := lt_of_le_of_ne (add_nonneg ha hb) (Ne.symm hab)
  refine ⟨?_, ?_, ?_⟩
  · rw [normalizedDifference, le_div_iff₀ hpos]
    linarith
  · rw [normalizedDifference, div_le_one hpos]
    linarith
  · rw [normalizedDifference, normalizedDifference, add_comm b a, ← neg_div, neg_sub]

/-- Witness for C7 (amended) at a = 2, b = 1. -/
theorem normalized_difference_bounds_witness :
    ((0 : ℚ) ≤ 2) ∧ ((0 : ℚ) ≤ 1) ∧ ((2 : ℚ) + 1 ≠ 0) ∧
    (-1 ≤ normalizedDifference 2 1 ∧ normalizedDifference 2 1 ≤ 1 ∧
      normalizedDifference 2 1 = - normalizedDifference 1 2) :=
  ⟨by norm_num, by norm_num, by norm_num,
   normalized_difference_bounds 2 1 (by norm_num) (by norm_num) (by norm_num)⟩

/-- Computation rule for calculate_fire_indices when the band query succeeds
and every required band is present. -/
theorem calculate_fire_indices_of_all (before_img after_img : EEImage P)
    (h : (required_bands.all fun band => before_img.bandNames.contains band) = true) :
    calculate_fire_indices before_img after_img false =
      ⟨before_img.normDiff nir_band swir_band, after_img.normDiff nir_band swir_band,
       fun p => before_img.normDiff nir_band swir_band p
         - after_img.normDiff nir_band swir_band p,
       before_img.normDiff nir_band red_band, after_img.normDiff nir_band red_band,
       before_img.normDiff green_band nir_band, after_img.normDiff green_band nir_band⟩ := by
  have e : calculate_fire_indices before_img after_img false =
      (if (! (required_bands.all fun band => before_img.bandNames.contains band)) = true
       then zeroIndices P
       else ⟨before_img.normDiff nir_band swir_band, after_img.normDiff nir_band swir_band,
         fun p => before_img.normDiff nir_band swir_band p
           - after_img.normDiff nir_band swir_band p,
         before_img.normDiff nir_band red_band, after_img.normDiff nir_band red_band,
         before_img.normDiff green_band nir_band,
         after_img.normDiff green_band nir_band⟩) := rfl
  rw [e, h]
  rfl

/-- Computation rule for calculate_fire_indices when a required band is
missing from the before image's band list. -/
theorem calculate_fire_indices_of_missing (before_img after_img : EEImage P)
    (h : (required_bands.all fun band => before_img.bandNames.contains band) = false) :
    calculate_fire_indices before_img after_img false = zeroIndices P := by
  have e : calculate_fire_indices before_img after_img false =
      (if (! (required_bands.all fun band => before_img.bandNames.contains band)) = true
       then zeroIndices P
       else ⟨before_img.normDiff nir_band swir_band, after_img.normDiff nir_band swir_band,
         fun p => before_img.normDiff nir_band swir_band p
           - after_img.normDiff nir_band swir_band p,
         before_img.normDiff nir_band red_band, after_img.normDiff nir_band red_band,
         before_img.normDiff green_band nir_band,
         after_img.normDiff green_band nir_band⟩) := rfl
  rw [e, h]
  rfl

/-- C2: when the band query succeeds and all four required bands are present,
calculate_fire_indices produces, for both the before and the after image, the
burn ratio as the normalized difference of (near-infrared, shortwave-infrared),
the vegetation index as the normalized difference of (near-infrared, red), and
the moisture index as the normalized difference of (green, near-infrared); and
dNBR is before-burn-ratio minus after-burn-ratio. -/
theorem indices_formulas (before_img after_img : EEImage P)
    (h : (required_bands.all fun band => before_img.bandNames.contains band) = true)
    (p : P) :
    (calculate_fire_indices before_img after_img false).nbr_before p
        = normalizedDifference (before_img.band nir_band p) (before_img.band swir_band p)
    ∧ (calculate_fire_indices before_img after_img false).nbr_after p
        = normalizedDifference (after_img.band nir_band p) (after_img.band swir_band p)
    ∧ (calculate_fire_indices before_img after_img false).ndvi_before p
        = normalizedDifference (before_img.band nir_band p) (before_img.band red_band p)
    ∧ (calculate_fire_indices before_img after_img false).ndvi_after p
        = normalizedDifference (after_img.band nir_band p) (after_img.band red_band p)
    ∧ (calculate_fire_indices before_img after_img false).ndwi_before p
        = normalizedDifference (before_img.band green_band p) (before_img.band nir_band p)
    ∧ (calculate_fire_indices before_img after_img false).ndwi_after p
        = normalizedDifference (after_img.band green_band p) (after_img.band nir_band p)
    ∧ (calculate_fire_indices before_img after_img false).dnbr p
        = (calculate_fire_indices before_img after_img false).nbr_before p
          - (calculate_fire_indices before_img after_img false).nbr_after p := by
  rw [calculate_fire_indices_of_all before_img after_img h]
  exact ⟨rfl, rfl, rfl, rfl, rfl, rfl, rfl⟩

/-- Witness for C2 on concrete four-band images. -/
theorem indices_formulas_witness :
    ((required_bands.all fun band => wBefore.bandNames.contains band) = true)
    ∧ ((calculate_fire_indices wBefore wAfter false).nbr_before ()
        = normalizedDifference (wBefore.band nir_band ()) (wBefore.band swir_band ())
    ∧ (calculate_fire_indices wBefore wAfter false).nbr_after ()
        = normalizedDifference (wAfter.band nir_band ()) (wAfter.band swir_band ())
    ∧ (calculate_fire_indices wBefore wAfter false).ndvi_before ()
        = normalizedDifference (wBefore.band nir_band ()) (wBefore.band red_band ())
    ∧ (calculate_fire_indices wBefore wAfter false).ndvi_after ()
        = normalizedDifference (wAfter.band nir_band ()) (wAfter.band red_band ())
    ∧ (calculate_fire_indices wBefore wAfter false).ndwi_before ()
        = normalizedDifference (wBefore.band green_band ()) (wBefore.band nir_band ())
    ∧ (calculate_fire_indices wBefore wAfter false).ndwi_after ()
        = normalizedDifference (wAfter.band green_band ()) (wAfter.band nir_band ())
    ∧ (calculate_fire_indices wBefore wAfter false).dnbr ()
        = (calculate_fire_indices wBefore wAfter false).nbr_before ()
          - (calculate_fire_indices wBefore wAfter false).nbr_after ()) :=
  ⟨rfl, indices_formulas wBefore wAfter rfl ()⟩

/-- C3: if the band-validation query raises, or any required band is missing
from the before image's band list, calculate_fire_indices returns the all-zero
sentinel under all seven output keys, and classifying the all-zero difference
index yields class 1 everywhere. -/
theorem band_failure_sentinel (before_img after_img : EEImage P) (getInfoFails : Bool)
    (h : getInfoFails = true ∨
      (required_bands.all fun band => before_img.bandNames.contains band) = false)
    (p : P) :
    (calculate_fire_indices before_img after_img getInfoFails).nbr_before p = 0
    ∧ (calculate_fire_indices before_img after_img getInfoFails).nbr_after p = 0
    ∧ (calculate_fire_indices before_img after_img getInfoFails).dnbr p = 0
    ∧ (calculate_fire_indices before_img after_img getInfoFails).ndvi_before p = 0
    ∧ (calculate_fire_indices before_img after_img getInfoFails).ndvi_after p = 0
    ∧ (calculate_fire_indices before_img after_img getInfoFails).ndwi_before p = 0
    ∧ (calculate_fire_indices before_img after_img getInfoFails).ndwi_after p = 0
    ∧ classify_burn_severity
        ((calculate_fire_indices before_img after_img getInfoFails).dnbr p) = 1 := by
  have hz : calculate_fire_indices before_img after_img getInfoFails = zeroIndices P := by
    rcases h with h | h
    · subst h
      rfl
    · cases getInfoFails
      · exact calculate_fire_indices_of_missing before_img after_img h
      · rfl
  rw [hz]
  refine ⟨rfl, rfl, rfl, rfl, rfl, rfl, rfl, ?_⟩
  exact classify_in_one 0 (by norm_num) (by norm_num)

/-- Witness for C3 on a concrete image missing two required bands. -/
theorem band_failure_sentinel_witness :
    ((false = true) ∨
      (required_bands.all fun band => wMissing.bandNames.contains band) = false)
    ∧ ((calculate_fire_indices wMissing wAfter false).nbr_before () = 0
    ∧ (calculate_fire_indices wMissing wAfter false).nbr_after () = 0
    ∧ (calculate_fire_indices wMissing wAfter false).dnbr () = 0
    ∧ (calculate_fire_indices wMissing wAfter false).ndvi_before () = 0
    ∧ (calculate_fire_indices wMissing wAfter false).ndvi_after () = 0
    ∧ (calculate_fire_indices wMissing wAfter false).ndwi_before () = 0
    ∧ (calculate_fire_indices wMissing wAfter false).ndwi_after () = 0
    ∧ classify_burn_severity
        ((calculate_fire_indices wMissing wAfter false).dnbr ()) = 1) :=
  ⟨Or.inr rfl, band_failure_sentinel wMissing wAfter false (Or.inr rfl) ()⟩

/-- C5: the aggregator builds the per-pixel area raster as pixel area in
square meters divided by 10000, and for the by-class statistics it masks the
area raster to pixels equal to each class value 0..5 and sums over the region
at scale 30 with the 1e9 max-pixel cap, returning one area quantity per
class (the total-burned sum uses the dnbr ≥ 0.1 mask over the same raster). -/
theorem aggregator_area_by_class (P : Type) (f g : P → ℚ) (aoi : List P)
    (pa : P → ℚ) :
    (calculate_fire_statistics ⟨some f, some g⟩ aoi pa false).1 =
      some ⟨⟨((aoi.filter fun p => decide ((0.1 : ℚ) ≤ f p)).map
                fun p => pa p / 10000).sum, 30, 1000000000⟩,
        fun i => ⟨((aoi.filter fun p => decide (g p = (i.val : ℚ))).map
                fun p => pa p / 10000).sum, 30, 1000000000⟩⟩ := by
  have h0 : (calculate_fire_statistics ⟨some f, some g⟩ aoi pa false).1 =
      some ⟨reduceRegion_sum
          (updateMask (fun p => pa p / 10000) fun p => decide ((0.1 : ℚ) ≤ f p))
          aoi 30 1000000000,
        fun i => reduceRegion_sum
          (updateMask (fun p => pa p / 10000) fun p => decide (g p = (i.val : ℚ)))
          aoi 30 1000000000⟩ := rfl
  rw [h0]
  refine congrArg some ?_
  congr 1
  · simp only [reduceRegion_sum, ReduceRegionResult.mk.injEq, updateMask_getD]
    exact ⟨sum_map_ite_filter _ _ _, trivial, trivial⟩
  · funext i
    simp only [reduceRegion_sum, ReduceRegionResult.mk.injEq, updateMask_getD]
    exact ⟨sum_map_ite_filter _ _ _, trivial, trivial⟩

/-- C4: a pixel satisfies the total-burned-area mask d ≥ 0.1 exactly when its
severity class is in {2, 3, 4, 5}; consequently, when the severity raster is
the classification of the dnbr raster, the total-burned-area sum equals the
sum of the per-class area sums of classes 2 through 5 (same region, scale and
pixel cap). -/
theorem burned_area_decomposition :
    (∀ d : ℚ, ((0.1 : ℚ) ≤ d ↔ classify_burn_severity d ∈ ([2, 3, 4, 5] : List ℚ))) ∧
    ∀ (P : Type) (f : P → ℚ) (aoi : List P) (pa : P → ℚ),
      ∃ stats : FireStats,
        (calculate_fire_statistics
            ⟨some f, some fun p => classify_burn_severity (f p)⟩ aoi pa false).1
          = some stats ∧
        stats.burned_area.sum =
          (stats.severity_stats 2).sum + (stats.severity_stats 3).sum +
          (stats.severity_stats 4).sum + (stats.severity_stats 5).sum := by
  constructor
  · intro d
    rw [classify_table d]
    split_ifs with h1 h2 h3 h4 h5
    · exact iff_of_false (by linarith) (by decide)
    · exact iff_of_false (by linarith) (by decide)
    · exact iff_of_true (by linarith) (by decide)
    · exact iff_of_true (by linarith) (by decide)
    · exact iff_of_true (by linarith) (by decide)
    · exact iff_of_true (by linarith) (by decide)
  · intro P f aoi pa
    refine ⟨⟨reduceRegion_sum
        (updateMask (fun p => pa p / 10000) fun p => decide ((0.1 : ℚ) ≤ f p))
        aoi 30 1000000000,
      fun i => reduceRegion_sum
        (updateMask (fun p => pa p / 10000)
          fun p => decide (classify_burn_severity (f p) = (i.val : ℚ)))
        aoi 30 1000000000⟩, rfl, ?_⟩
    have e2 : (((2 : Fin 6)).val : ℚ) = 2 := by rfl
    have e3 : (((3 : Fin 6)).val : ℚ) = 3 := by rfl
    have e4 : (((4 : Fin 6)).val : ℚ) = 4 := by rfl
    have e5 : (((5 : Fin 6)).val : ℚ) = 5 := by rfl
    simp only [reduceRegion_sum, updateMask_getD, e2, e3, e4, e5]
    exact sum_ite_split f (fun p => pa p / 10000) aoi

/-- C9: any exception during area aggregation is caught inside
calculate_fire_statistics, which returns the unavailable result None together
with the advisory warning, and never propagates the exception. -/
theorem aggregation_failure_caught (P : Type) (indices : FireIndicesMap P)
    (aoi : List P) (pa : P → ℚ) :
    calculate_fire_statistics indices aoi pa true = (none, true) := rfl

/-- C10: with 'dnbr' present but 'burn_severity' absent, the aggregator
discards the already-constructed total-burned-area reduction and returns
None (with no advisory warning); statistics are returned exactly when both
'dnbr' and 'burn_severity' are present. -/
theorem missing_severity_returns_none (P : Type) (f : P → ℚ) (aoi : List P)
    (pa : P → ℚ) :
    (calculate_fire_statistics ⟨some f, none⟩ aoi pa false = (none, false)) ∧
    (∀ g : P → ℚ,
      (calculate_fire_statistics ⟨some f, some g⟩ aoi pa false).1.isSome = true) ∧
    (∀ s : Option (P → ℚ),
      calculate_fire_statistics ⟨none, s⟩ aoi pa false = (none, false)) :=
  ⟨rfl, fun _ => rfl, fun _ => rfl⟩

/-- C8: the composite selector keeps exactly the collection items whose
timestamp lies in the window ([before_date - 180, before_date] for the before
composite, [after_date, after_date + 30] for the after composite), whose
footprint intersects the region of interest, and whose cloud-cover metadata
is strictly below the threshold (20 before, 30 after); it reduces the
filtered set to a single image by per-pixel, per-band median and clips the
result to the region of interest. -/
theorem composite_selector_props (sentinel2 : List S2Item)
    (before_date after_date : ℤ) (aoi : Rect) :
    (∀ it : S2Item,
      it ∈ filterCloudLt (filterBounds
          (filterDate sentinel2 (before_date - 180) before_date) aoi) 20 ↔
        it ∈ sentinel2 ∧ (before_date - 180 ≤ it.time ∧ it.time ≤ before_date) ∧
          it.footprint.intersects aoi = true ∧ it.cloudyPixelPercentage < 20) ∧
    (∀ it : S2Item,
      it ∈ filterCloudLt (filterBounds
          (filterDate sentinel2 after_date (after_date + 30)) aoi) 30 ↔
        it ∈ sentinel2 ∧ (after_date ≤ it.time ∧ it.time ≤ after_date + 30) ∧
          it.footprint.intersects aoi = true ∧ it.cloudyPixelPercentage < 30) ∧
    (∀ (band : String) (q : ℚ × ℚ),
      (load_fire_datasets sentinel2 before_date after_date aoi).1 band q =
        if aoi.containsPt q then
          medianQ ((filterCloudLt (filterBounds
              (filterDate sentinel2 (before_date - 180) before_date) aoi) 20).filterMap
            fun it => it.px band q)
        else none) ∧
    (∀ (band : String) (q : ℚ × ℚ),
      (load_fire_datasets sentinel2 before_date after_date aoi).2 band q =
        if aoi.containsPt q then
          medianQ ((filterCloudLt (filterBounds
              (filterDate sentinel2 after_date (after_date + 30)) aoi) 30).filterMap
            fun it => it.px band q)
        else none) := by
  refine ⟨?_, ?_, ?_, ?_⟩
  · intro it
    simp only [filterCloudLt, filterBounds, filterDate, List.mem_filter,
      Bool.and_eq_true, decide_eq_true_eq]
    tauto
  · intro it
    simp only [filterCloudLt, filterBounds, filterDate, List.mem_filter,
      Bool.and_eq_true, decide_eq_true_eq]
    tauto
  · intro band q
    rfl
  · intro band q
    rfl

end PalisadesFire
